import Mathlib

/-!
Verification development for `modern-flow-scroll-for-spektrix` (src/index.js).

The library listens for `postMessage` events from an embedded Spektrix
iframe and scrolls the host page.  We give a shallow embedding of the
message-handling pipeline: JavaScript values are modelled by an inductive
type `JSValue`, JavaScript numbers by `JSNum` (NaN, the two infinities, or
a finite value modelled as a rational), and the browser-provided
primitives (`new URL`, `JSON.parse`, `document.getElementById`,
`document.querySelector`, `window.scrollY`) are supplied as an explicit
environment `Env`.  Each function of the source file becomes a Lean
definition of the same name; the side-effecting `window.scrollTo` call is
modelled by returning the scroll command (`Option ScrollCmd`), and the
write-only `debugLog` diagnostics are not modelled (they never influence
control flow).
-/

/-- Model of a JavaScript number: NaN, the infinities, or a finite value.
Finite doubles are modelled as rationals; the floating-point rounding of
the underlying doubles is not modelled. -/
inductive JSNum where
  | nan
  | posInf
  | negInf
  | finite (q : ℚ)

/-- Model of a JavaScript value.  A zero-argument function (used for the
`navHeight` callback option) is modelled by the result of calling it:
either a thrown exception (`Except.error`) or a returned value. -/
inductive JSValue where
  | null
  | undefined
  | bool (b : Bool)
  | num (n : JSNum)
  | str (s : String)
  | arr (elems : List JSValue)
  | obj (fields : List (String × JSValue))
  | fn (result : Except Unit JSValue)

/-- JavaScript `hay.includes(needle)` on strings: substring containment. -/
def strIncludes (hay needle : String) : Bool :=
  decide (needle.toList <:+: hay.toList)

/-- JavaScript `s.endsWith(suffix)`. -/
def strEndsWith (s suffixStr : String) : Bool :=
  List.isSuffixOf suffixStr.toList s.toList

/-- Numeric value of a list of decimal digit characters. -/
def digitsVal (cs : List Char) : ℕ :=
  cs.foldl (fun a c => a * 10 + (c.toNat - 48)) 0

/-- Optional exponent part of a decimal literal: empty input returns the
mantissa unchanged, `e`/`E` followed by an optionally signed digit string
scales it by the corresponding power of ten, anything else fails. -/
def parseExpPart (mantissa : ℚ) (cs : List Char) : Option ℚ :=
  match cs with
  | [] => some mantissa
  | c :: rest =>
    if c == 'e' || c == 'E' then
      let signDigits : Bool × List Char :=
        match rest with
        | '+' :: t => (false, t)
        | '-' :: t => (true, t)
        | t => (false, t)
      if !signDigits.2.isEmpty && signDigits.2.all Char.isDigit then
        let e : ℕ := digitsVal signDigits.2
        some (if signDigits.1 then mantissa / 10 ^ e else mantissa * 10 ^ e)
      else none
    else none

/-- Unsigned decimal literal: digits, optionally a point and more digits,
optionally an exponent.  Fails on anything else. -/
def parseUnsignedNum (cs : List Char) : Option ℚ :=
  let ip := cs.takeWhile Char.isDigit
  let rest := cs.dropWhile Char.isDigit
  match rest with
  | '.' :: rest2 =>
    let fp := rest2.takeWhile Char.isDigit
    let rest3 := rest2.dropWhile Char.isDigit
    if ip.isEmpty && fp.isEmpty then none
    else parseExpPart ((digitsVal ip : ℚ) + (digitsVal fp : ℚ) / 10 ^ fp.length) rest3
  | _ => if ip.isEmpty then none else parseExpPart (digitsVal ip : ℚ) rest

/-- Model of the ECMAScript string-to-number conversion used by the
`Number` builtin: surrounding whitespace is ignored, the empty string is
`0`, `Infinity` literals are recognised, and otherwise an optionally
signed decimal literal is parsed; any other string is NaN.  (The rarely
used hex/octal/binary literal forms are not modelled.) -/
def strToNumber (s : String) : JSNum :=
  let cs := ((s.toList.dropWhile Char.isWhitespace).reverse.dropWhile Char.isWhitespace).reverse
  match cs with
  | [] => .finite 0
  | _ =>
    if cs = "Infinity".toList || cs = "+Infinity".toList then .posInf
    else if cs = "-Infinity".toList then .negInf
    else
      let signBody : Bool × List Char :=
        match cs with
        | '-' :: t => (true, t)
        | '+' :: t => (false, t)
        | t => (false, t)
      match parseUnsignedNum signBody.2 with
      | some q => .finite (if signBody.1 then -q else q)
      | none => .nan

/-- Model of the JavaScript `Number(x)` coercion.  Primitives follow the
ECMAScript ToNumber table; object-like values are mapped to NaN (exact for
plain objects and functions; arrays, which JavaScript coerces through
their string form, are conservatively mapped to NaN as well — no message
field in this system carries an array where a number is expected). -/
def toNumber (v : JSValue) : JSNum :=
  match v with
  | .null => .finite 0
  | .undefined => .nan
  | .bool b => if b then .finite 1 else .finite 0
  | .num n => n
  | .str s => strToNumber s
  | .arr _ => .nan
  | .obj _ => .nan
  | .fn _ => .nan

/-- JavaScript `Number.isFinite` (no coercion at the `JSNum` level). -/
def jsNumIsFinite (n : JSNum) : Bool :=
  match n with
  | .finite _ => true
  | _ => false

/-- Truth value of `v && typeof v === "object"`: non-null objects and
arrays (functions have `typeof "function"`, `null` is falsy). -/
def isTruthyObject (v : JSValue) : Bool :=
  match v with
  | .obj _ => true
  | .arr _ => true
  | _ => false

/-- JavaScript property access `v.key` for a string key: the field of an
object, `undefined` otherwise (string keys such as `"type"` are absent
from arrays and primitives). -/
def jsGet (v : JSValue) (key : String) : JSValue :=
  match v with
  | .obj fields => (List.lookup key fields).getD .undefined
  | _ => .undefined

/-- Truth value of the strict comparison `v === s` for a string literal. -/
def strictEqString (v : JSValue) (s : String) : Bool :=
  match v with
  | .str t => t == s
  | _ => false

/-- The source expression `typeof data.path === "string" ? data.path : ""`
of the navigation branch. -/
def pathField (data : JSValue) : String :=
  match jsGet data "path" with
  | .str s => s
  | _ => ""

/-- Scroll behaviour of a matched DOM element, as read through
`getBoundingClientRect()`: its viewport-relative top and its height. -/
structure DomElement where
  rectTop : ℚ
  rectHeight : ℚ

/-- The browser-provided primitives the library uses, supplied as an
explicit environment: URL parsing (`new URL(s).hostname`, `none` when the
constructor throws), `JSON.parse` (`none` when it throws), element lookup
by id and by CSS selector, and the current vertical scroll offset. -/
structure Env where
  parseHostname : String → Option String
  jsonParse : String → Option JSValue
  getElementById : String → Option DomElement
  querySelector : String → Option DomElement
  scrollY : ℚ

/-- The option record of the library (source `defaultOptions` shape).
`navHeight` and `expressCheckoutAllowlist` are arbitrary JavaScript
values, exactly as a caller may pass them. -/
structure Options where
  iframeId : String
  domain : String
  navSelector : String
  navHeight : JSValue
  scrollBehavior : String
  navigateScrollTarget : String
  expressCheckoutAllowlist : JSValue
  debug : Bool

/-- The source `defaultOptions` object. -/
def defaultOptions : Options where
  iframeId := "SpektrixIFrame"
  domain := ""
  navSelector := ""
  navHeight := .null
  scrollBehavior := "auto"
  navigateScrollTarget := "page"
  expressCheckoutAllowlist := .arr [.str "startcheckoutlogin", .str "orderconfirmation"]
  debug := false

/-- Source `isAllowedOrigin(origin, domain)`: parse the origin as a URL
(false when the constructor throws), accept any hostname ending in
`.spektrix.com`, otherwise accept exactly the configured domain (the JS
expression `domain && hostname === domain` is falsy when `domain` is
empty). -/
def isAllowedOrigin (parseHostname : String → Option String)
    (origin domain : String) : Bool :=
  match parseHostname origin with
  | none => false
  | some hostname =>
    if strEndsWith hostname ".spektrix.com" then true
    else decide (domain ≠ "") && hostname == domain

/-- Source `coerceMessageData(data)`: a truthy object is returned as is;
a string is parsed as JSON and the result returned when it is a truthy
object; everything else yields `null` (modelled as `none`). -/
def coerceMessageData (jsonParse : String → Option JSValue)
    (data : JSValue) : Option JSValue :=
  if isTruthyObject data then some data
  else
    match data with
    | .str s =>
      match jsonParse s with
      | some parsed => if isTruthyObject parsed then some parsed else none
      | none => none
    | _ => none

/-- Source `getElementTop(el)`: `el.getBoundingClientRect().top +
window.scrollY`. -/
def getElementTop (env : Env) (el : DomElement) : ℚ :=
  el.rectTop + env.scrollY

/-- Source `getEffectiveNavHeight(options)`: a callback `navHeight` is
invoked and its result `Number`-coerced, a throw or non-finite result
counting as 0; otherwise a finite numeric `navHeight` is used directly;
otherwise a non-empty `navSelector` yields the height of the first
matching element, or 0 when none matches; otherwise 0. -/
def getEffectiveNavHeight (env : Env) (options : Options) : ℚ :=
  match options.navHeight with
  | .fn (.error _) => 0
  | .fn (.ok v) =>
    match toNumber v with
    | .finite q => q
    | _ => 0
  | .num (.finite q) => q
  | _ =>
    if options.navSelector ≠ "" then
      match env.querySelector options.navSelector with
      | some el => el.rectHeight
      | none => 0
    else 0

/-- Source `shouldJumpAfterNavigation(path, allowlist)`: outside the
checkout path namespace always jump; inside it, jump only when the
allowlist (replaced by `[]` when not an array) is non-empty and some
non-empty string entry is a suffix of the path. -/
def shouldJumpAfterNavigation (path : String) (allowlist : JSValue) : Bool :=
  if !strIncludes path "secure/checkout/v2/" then true
  else
    let list : List JSValue :=
      match allowlist with
      | .arr l => l
      | _ => []
    if list.isEmpty then false
    else
      list.any fun suffixEntry =>
        match suffixEntry with
        | .str s => decide (0 < s.length) && strEndsWith path s
        | _ => false

/-- JavaScript `Math.round`: round half toward positive infinity. -/
def jsRound (q : ℚ) : ℤ := ⌊q + 1 / 2⌋

/-- Source `computeScrollTarget(base, navHeight, extraOffset)`:
`Math.round(Math.max(0, base + extraOffset - navHeight))`. -/
def computeScrollTarget (base navHeight extraOffset : ℚ) : ℤ :=
  jsRound (max 0 (base + extraOffset - navHeight))

/-- A call to `window.scrollTo({top, left, behavior})`. -/
structure ScrollCmd where
  top : ℤ
  left : ℤ
  behavior : String
deriving DecidableEq

/-- Source `scrollTo(options, targetTop, force)`: scroll when forced or
when the target is strictly above the current scroll offset, otherwise do
nothing.  The emitted command is returned; `none` is the no-op branch. -/
def scrollTo (options : Options) (scrollY : ℚ) (targetTop : ℤ) (force : Bool) :
    Option ScrollCmd :=
  if force || decide ((targetTop : ℚ) < scrollY) then
    some ⟨targetTop, 0, options.scrollBehavior⟩
  else none

/-- The decision part of the source `onMessage` handler: every check up to
(but not including) the `scrollTo` call, returning the computed target and
force flag of the scroll request, or `none` when the message is dropped.
The branch structure mirrors the source: origin check, payload coercion,
iframe lookup, nav-height resolution, then the `data.type ===
"spektrix:navigated"` dispatch. -/
def onMessageDecision (options : Options) (env : Env) (origin : String)
    (msgData : JSValue) : Option (ℤ × Bool) :=
  if !isAllowedOrigin env.parseHostname origin options.domain then none
  else
    match coerceMessageData env.jsonParse msgData with
    | none => none
    | some data =>
      match env.getElementById options.iframeId with
      | none => none
      | some iframe =>
        let navHeight := getEffectiveNavHeight env options
        if strictEqString (jsGet data "type") "spektrix:navigated" then
          let path : String := pathField data
          if decide (path ≠ "") &&
              shouldJumpAfterNavigation path options.expressCheckoutAllowlist then
            let baseTarget : ℚ :=
              if options.navigateScrollTarget == "page" then 0
              else getElementTop env iframe
            some (computeScrollTarget baseTarget navHeight 0, false)
          else none
        else
          match toNumber (jsGet data "spektrixOffset") with
          | .finite requestedOffset =>
            if 0 < requestedOffset then
              some (computeScrollTarget (getElementTop env iframe) navHeight
                      requestedOffset, true)
            else none
          | _ => none

/-- The full source `onMessage` handler: the decision stage followed by
the `scrollTo` executor. -/
def onMessage (options : Options) (env : Env) (origin : String)
    (msgData : JSValue) : Option ScrollCmd :=
  match onMessageDecision options env origin msgData with
  | some (target, force) => scrollTo options env.scrollY target force
  | none => none

/-- The event classification of the spec's §3 data model. -/
inductive NormalizedEvent where
  | navigation (path : String)
  | flowOffset (offset : ℚ)

/-- The classification step of the source `onMessage` dispatch, isolated
from policy and execution: a message whose `type` is strictly
`"spektrix:navigated"` is a navigation event when its `path` is a
non-empty string and is otherwise dropped; any other message is a
flow-offset event when `Number(data.spektrixOffset)` is finite and
strictly positive, and is otherwise dropped. -/
def classifyMessage (data : JSValue) : Option NormalizedEvent :=
  if strictEqString (jsGet data "type") "spektrix:navigated" then
    if pathField data ≠ "" then some (.navigation (pathField data)) else none
  else
    match toNumber (jsGet data "spektrixOffset") with
    | .finite requestedOffset =>
      if 0 < requestedOffset then some (.flowOffset requestedOffset) else none
    | _ => none

/-- Rounding an integer-valued rational gives back the integer. -/
theorem jsRound_intCast (n : ℤ) : jsRound (n : ℚ) = n := by
  unfold jsRound
  rw [Int.floor_eq_iff]
  constructor
  · linarith
  · linarith

/-- Rounding commutes with clamping at zero: `Math.round(Math.max(0, x))`
equals `Math.max(0, Math.round(x))`. -/
theorem jsRound_max_zero (q : ℚ) : jsRound (max 0 q) = max 0 (jsRound q) := by
  rcases le_total q 0 with h | h
  · rw [max_eq_left h]
    have h0 : jsRound (0 : ℚ) = 0 := by
      simpa using jsRound_intCast 0
    have hle : jsRound q ≤ 0 := by
      have := Int.floor_le_floor (α := ℚ) (add_le_add_right h (1 / 2))
      unfold jsRound at h0 ⊢
      calc ⌊q + 1 / 2⌋ ≤ ⌊(0 : ℚ) + 1 / 2⌋ := this
        _ = 0 := h0
    rw [h0, max_eq_left hle]
  · rw [max_eq_right h]
    have hge : 0 ≤ jsRound q := by
      unfold jsRound
      have : ((0 : ℤ) : ℚ) ≤ q + 1 / 2 := by push_cast; linarith
      exact Int.le_floor.mpr this
    rw [max_eq_right hge]

/-- Evaluation rule for `computeScrollTarget` when the raw target is a
non-negative integer. -/
theorem computeScrollTarget_eq (base navHeight extraOffset : ℚ) (t : ℤ)
    (h : base + extraOffset - navHeight = (t : ℚ)) (ht : 0 ≤ t) :
    computeScrollTarget base navHeight extraOffset = t := by
  unfold computeScrollTarget
  rw [h, max_eq_right (by exact_mod_cast ht)]
  exact jsRound_intCast t

/-- C1: for every origin string and configured domain, `isAllowedOrigin`
returns true when the origin parses to a hostname ending in
`.spektrix.com`, regardless of the domain; otherwise true exactly when the
configured domain is non-empty and equals the hostname; and false when the
origin fails to parse. -/
theorem C1_isAllowedOrigin_spec (parseHostname : String → Option String)
    (origin domain : String) :
    (parseHostname origin = none →
      isAllowedOrigin parseHostname origin domain = false) ∧
    (∀ h, parseHostname origin = some h →
      (isAllowedOrigin parseHostname origin domain = true ↔
        (strEndsWith h ".spektrix.com" = true ∨ (domain ≠ "" ∧ h = domain)))) := by
  constructor
  · intro hp
    simp [isAllowedOrigin, hp]
  · intro h hp
    simp only [isAllowedOrigin, hp]
    by_cases hs : strEndsWith h ".spektrix.com" = true
    · simp [hs]
    · simp [hs, Bool.and_eq_true, decide_eq_true_iff]

/-- Concrete instance of C1: a `spektrix.com` subdomain is accepted with
an empty configured domain, and an unparseable origin is rejected. -/
theorem C1_isAllowedOrigin_witness :
    isAllowedOrigin
      (fun s => if s = "https://system.spektrix.com" then some "system.spektrix.com" else none)
      "https://system.spektrix.com" "" = true ∧
    isAllowedOrigin (fun _ => none) "not a url" "tickets.example.org" = false := by
  constructor
  · exact ((C1_isAllowedOrigin_spec
      (fun s => if s = "https://system.spektrix.com" then some "system.spektrix.com" else none)
      "https://system.spektrix.com" "").2 "system.spektrix.com" (by decide)).mpr
      (Or.inl (by decide))
  · exact (C1_isAllowedOrigin_spec (fun _ => none) "not a url" "tickets.example.org").1 rfl

/-- Inside the checkout namespace, `shouldJumpAfterNavigation` on an array
allowlist reduces to a non-emptiness check plus a suffix scan. -/
theorem shouldJump_checkout_eq (path : String) (l : List JSValue)
    (hin : strIncludes path "secure/checkout/v2/" = true) :
    shouldJumpAfterNavigation path (.arr l) =
      (!l.isEmpty && l.any fun e =>
        match e with
        | .str s => decide (0 < s.length) && strEndsWith path s
        | _ => false) := by
  simp only [shouldJumpAfterNavigation, hin]
  cases l <;> simp

/-- C2: navigation policy — outside the checkout namespace every path
scrolls; inside it a scroll implies some allowlist entry is a suffix of
the path, an empty allowlist never scrolls, and the three concrete spec
cases hold with the default allowlist. -/
theorem C2_shouldJumpAfterNavigation_spec :
    (∀ path allowlist, strIncludes path "secure/checkout/v2/" = false →
       shouldJumpAfterNavigation path allowlist = true) ∧
    (∀ path (allow : List String), strIncludes path "secure/checkout/v2/" = true →
       shouldJumpAfterNavigation path (.arr (allow.map .str)) = true →
       ∃ s ∈ allow, strEndsWith path s = true) ∧
    (∀ path (allow : List String), strIncludes path "secure/checkout/v2/" = true →
       (∃ s ∈ allow, s ≠ "" ∧ strEndsWith path s = true) →
       shouldJumpAfterNavigation path (.arr (allow.map .str)) = true) ∧
    (∀ path, strIncludes path "secure/checkout/v2/" = true →
       shouldJumpAfterNavigation path (.arr []) = false) ∧
    shouldJumpAfterNavigation "/secure/checkout/v2/orderconfirmation"
      defaultOptions.expressCheckoutAllowlist = true ∧
    shouldJumpAfterNavigation "/secure/checkout/v2/payment"
      defaultOptions.expressCheckoutAllowlist = false ∧
    (∀ allowlist, shouldJumpAfterNavigation "/tickets/events" allowlist = true) := by
  refine ⟨?_, ?_, ?_, ?_, by decide, by decide, ?_⟩
  · intro path allowlist h
    simp [shouldJumpAfterNavigation, h]
  · intro path allow hin hj
    rw [shouldJump_checkout_eq path _ hin] at hj
    simp only [Bool.and_eq_true] at hj
    rcases hj with ⟨-, hany⟩
    rcases List.any_eq_true.mp hany with ⟨e, he, hp⟩
    rcases List.mem_map.mp he with ⟨s, hs, rfl⟩
    simp only [Bool.and_eq_true] at hp
    exact ⟨s, hs, hp.2⟩
  · intro path allow hin hex
    rcases hex with ⟨s, hs, hne, hsfx⟩
    rw [shouldJump_checkout_eq path _ hin]
    simp only [Bool.and_eq_true]
    constructor
    · rcases allow with _ | _
      · exact absurd hs (List.not_mem_nil s)
      · simp
    · refine List.any_eq_true.mpr ⟨.str s, List.mem_map.mpr ⟨s, hs, rfl⟩, ?_⟩
      simp only [Bool.and_eq_true, decide_eq_true_iff]
      refine ⟨?_, hsfx⟩
      cases s with
      | mk data =>
        cases data with
        | nil => exact absurd rfl hne
        | cons c cs => simp [String.length]
  · intro path hin
    rw [shouldJump_checkout_eq path _ hin]
    simp
  · intro allowlist
    have h : strIncludes "/tickets/events" "secure/checkout/v2/" = false := by decide
    simp [shouldJumpAfterNavigation, h]

/-- Concrete instance of C2: a path outside the checkout namespace
scrolls with a non-array allowlist, and an empty allowlist suppresses the
jump inside the checkout. -/
theorem C2_shouldJumpAfterNavigation_witness :
    shouldJumpAfterNavigation "/secure/checkout/v2/delivery" JSValue.null = false ∧
    shouldJumpAfterNavigation "/events/show" (JSValue.arr []) = true := by
  constructor
  · have h := C2_shouldJumpAfterNavigation_spec.2.2.2.1 "/secure/checkout/v2/delivery"
      (by decide)
    have hnull : shouldJumpAfterNavigation "/secure/checkout/v2/delivery" JSValue.null
        = shouldJumpAfterNavigation "/secure/checkout/v2/delivery" (.arr []) := by
      simp [shouldJumpAfterNavigation]
    rw [hnull]
    exact h
  · exact C2_shouldJumpAfterNavigation_spec.1 "/events/show" (JSValue.arr [])
      (by decide)

/-- C3: the scroll executor always scrolls when forced, and otherwise
scrolls exactly when the target is strictly above the current scroll
offset, doing nothing otherwise. -/
theorem C3_scrollTo_spec (options : Options) (scrollY : ℚ) (targetTop : ℤ) :
    scrollTo options scrollY targetTop true =
      some ⟨targetTop, 0, options.scrollBehavior⟩ ∧
    ((targetTop : ℚ) < scrollY →
      scrollTo options scrollY targetTop false =
        some ⟨targetTop, 0, options.scrollBehavior⟩) ∧
    (¬ (targetTop : ℚ) < scrollY →
      scrollTo options scrollY targetTop false = none) := by
  refine ⟨by simp [scrollTo], ?_, ?_⟩
  · intro h
    simp [scrollTo, h]
  · intro h
    simp [scrollTo, h]

/-- Concrete instance of C3, the spec's executor cases: current scroll
800 and target 600 without force scrolls, current scroll 300 and target
600 without force is a no-op, and the same case with force scrolls. -/
theorem C3_scrollTo_witness :
    scrollTo defaultOptions 800 600 false = some ⟨600, 0, "auto"⟩ ∧
    scrollTo defaultOptions 300 600 false = none ∧
    scrollTo defaultOptions 300 600 true = some ⟨600, 0, "auto"⟩ := by
  refine ⟨?_, ?_, ?_⟩
  · exact (C3_scrollTo_spec defaultOptions 800 600).2.1 (by norm_num)
  · exact (C3_scrollTo_spec defaultOptions 300 600).2.2 (by norm_num)
  · exact (C3_scrollTo_spec defaultOptions 300 600).1

/-- C7: the computed scroll target is always a non-negative integer, and
a raw target below zero is clamped to exactly zero. -/
theorem C7_computeScrollTarget_clamped (base navHeight extraOffset : ℚ) :
    0 ≤ computeScrollTarget base navHeight extraOffset ∧
    (base + extraOffset - navHeight < 0 →
      computeScrollTarget base navHeight extraOffset = 0) := by
  constructor
  · unfold computeScrollTarget jsRound
    have hmax : (0 : ℚ) ≤ max 0 (base + extraOffset - navHeight) := le_max_left _ _
    have : ((0 : ℤ) : ℚ) ≤ max 0 (base + extraOffset - navHeight) + 1 / 2 := by
      push_cast
      linarith
    exact Int.le_floor.mpr this
  · intro h
    unfold computeScrollTarget
    rw [max_eq_left h.le]
    simpa using jsRound_intCast 0

/-- Concrete instance of C7: a raw target of `1 + 0 - 5 < 0` resolves to
exactly 0, and a positive raw target is non-negative. -/
theorem C7_computeScrollTarget_witness :
    computeScrollTarget 1 5 0 = 0 ∧ 0 ≤ computeScrollTarget 400 50 120 := by
  constructor
  · exact (C7_computeScrollTarget_clamped 1 5 0).2 (by norm_num)
  · exact (C7_computeScrollTarget_clamped 400 50 120).1

/-- Unfolding equation of `getEffectiveNavHeight`. -/
theorem getEffectiveNavHeight_def (env : Env) (options : Options) :
    getEffectiveNavHeight env options =
      match options.navHeight with
      | .fn (.error _) => 0
      | .fn (.ok v) =>
        (match toNumber v with
         | .finite q => q
         | _ => 0)
      | .num (.finite q) => q
      | _ =>
        if options.navSelector ≠ "" then
          match env.querySelector options.navSelector with
          | some el => el.rectHeight
          | none => 0
        else 0 := rfl

/-- An environment with no matching elements and no parseable input,
used to instantiate universally quantified statements. -/
def emptyEnv : Env where
  parseHostname := fun _ => none
  jsonParse := fun _ => none
  getElementById := fun _ => none
  querySelector := fun _ => none
  scrollY := 0

/-- C8: the nav-offset resolver, first match wins — a callable override
is invoked and a throw or non-finite coerced result counts as 0; a finite
numeric override is used directly, unclamped; otherwise a non-empty
selector yields the first match's rendered height or 0; otherwise 0. -/
theorem C8_getEffectiveNavHeight_spec (env : Env) (options : Options) :
    (∀ v, options.navHeight = .fn (.ok v) →
       getEffectiveNavHeight env options =
         (match toNumber v with
          | .finite q => q
          | _ => 0)) ∧
    (∀ e, options.navHeight = .fn (.error e) →
       getEffectiveNavHeight env options = 0) ∧
    (∀ q, options.navHeight = .num (.finite q) →
       getEffectiveNavHeight env options = q) ∧
    ((∀ r, options.navHeight ≠ .fn r) →
     (∀ q, options.navHeight ≠ .num (.finite q)) →
     options.navSelector ≠ "" →
       getEffectiveNavHeight env options =
         (match env.querySelector options.navSelector with
          | some el => el.rectHeight
          | none => 0)) ∧
    ((∀ r, options.navHeight ≠ .fn r) →
     (∀ q, options.navHeight ≠ .num (.finite q)) →
     options.navSelector = "" →
       getEffectiveNavHeight env options = 0) := by
  refine ⟨?_, ?_, ?_, ?_, ?_⟩
  · intro v h
    rw [getEffectiveNavHeight_def, h]
  · intro e h
    rw [getEffectiveNavHeight_def, h]
  · intro q h
    rw [getEffectiveNavHeight_def, h]
  · intro hfn hnum hsel
    rw [getEffectiveNavHeight_def]
    cases hnv : options.navHeight with
    | fn r => exact absurd hnv (hfn r)
    | num n =>
      cases n with
      | finite q => exact absurd hnv (hnum q)
      | nan => simp [hsel]
      | posInf => simp [hsel]
      | negInf => simp [hsel]
    | null => simp [hsel]
    | undefined => simp [hsel]
    | bool b => simp [hsel]
    | str s => simp [hsel]
    | arr l => simp [hsel]
    | obj f => simp [hsel]
  · intro hfn hnum hsel
    rw [getEffectiveNavHeight_def]
    cases hnv : options.navHeight with
    | fn r => exact absurd hnv (hfn r)
    | num n =>
      cases n with
      | finite q => exact absurd hnv (hnum q)
      | nan => simp [hsel]
      | posInf => simp [hsel]
      | negInf => simp [hsel]
    | null => simp [hsel]
    | undefined => simp [hsel]
    | bool b => simp [hsel]
    | str s => simp [hsel]
    | arr l => simp [hsel]
    | obj f => simp [hsel]

/-- Concrete instance of C8: a negative fixed override is used unclamped,
a callback returning a non-numeric string counts as 0, and a throwing
callback counts as 0. -/
theorem C8_getEffectiveNavHeight_witness :
    getEffectiveNavHeight emptyEnv
      { defaultOptions with navHeight := .num (.finite (-10)) } = -10 ∧
    getEffectiveNavHeight emptyEnv
      { defaultOptions with navHeight := .fn (.ok (.str "abc")) } = 0 ∧
    getEffectiveNavHeight emptyEnv
      { defaultOptions with navHeight := .fn (.error ()) } = 0 := by
  refine ⟨?_, ?_, ?_⟩
  · exact (C8_getEffectiveNavHeight_spec emptyEnv _).2.2.1 (-10) rfl
  · exact (C8_getEffectiveNavHeight_spec emptyEnv _).1 (.str "abc") rfl
  · exact (C8_getEffectiveNavHeight_spec emptyEnv _).2.1 () rfl

/-- C5 counterexample: an array payload is a truthy `typeof "object"`
value, so `coerceMessageData` returns it unchanged — not `null` as the
claim states for arrays. -/
theorem C5_coerceMessageData_counterexample :
    coerceMessageData (fun _ => none) (.arr [.num (.finite 1)]) =
      some (.arr [.num (.finite 1)]) := rfl

/-- C5 amended: a non-null object — including an array, which JavaScript
treats as `typeof "object"` — is returned unchanged; a string yields the
parse result when that is a truthy object and `null` otherwise; every
remaining shape (number, boolean, `null`, `undefined`, function) yields
`null`. -/
theorem C5_coerceMessageData_characterization (jsonParse : String → Option JSValue) :
    (∀ fields, coerceMessageData jsonParse (.obj fields) = some (.obj fields)) ∧
    (∀ elems, coerceMessageData jsonParse (.arr elems) = some (.arr elems)) ∧
    (∀ s, coerceMessageData jsonParse (.str s) =
       (match jsonParse s with
        | some parsed => if isTruthyObject parsed then some parsed else none
        | none => none)) ∧
    coerceMessageData jsonParse .null = none ∧
    coerceMessageData jsonParse .undefined = none ∧
    (∀ b, coerceMessageData jsonParse (.bool b) = none) ∧
    (∀ n, coerceMessageData jsonParse (.num n) = none) ∧
    (∀ r, coerceMessageData jsonParse (.fn r) = none) := by
  refine ⟨fun _ => rfl, fun _ => rfl, fun s => rfl, rfl, rfl, fun _ => rfl,
    fun _ => rfl, fun _ => rfl⟩

/-- C4 counterexample: a mapping whose `type` is `"spektrix:navigated"`
but whose `path` is not a non-empty string is dropped by the dispatch even
though it carries a finite, strictly positive `spektrixOffset` — the claim
instead classifies it as a flow-offset event. -/
theorem C4_classifyMessage_counterexample :
    classifyMessage (.obj [("type", .str "spektrix:navigated"),
        ("spektrixOffset", .num (.finite 120))]) = none ∧
    toNumber (jsGet (.obj [("type", .str "spektrix:navigated"),
        ("spektrixOffset", .num (.finite 120))]) "spektrixOffset") =
      .finite 120 ∧ (0 : ℚ) < 120 := by
  refine ⟨rfl, rfl, by norm_num⟩

/-- C4 amended: a message typed `"spektrix:navigated"` is a navigation
event when its `path` is a non-empty string and is otherwise discarded,
even when a valid `spektrixOffset` is present; only a message whose `type`
is not `"spektrix:navigated"` is classified as a flow-offset event, when
`Number` applied to its `spektrixOffset` is finite and strictly positive;
everything else is discarded with no event. -/
theorem C4_classifyMessage_spec (data : JSValue) :
    (strictEqString (jsGet data "type") "spektrix:navigated" = true →
      pathField data ≠ "" →
      classifyMessage data = some (.navigation (pathField data))) ∧
    (strictEqString (jsGet data "type") "spektrix:navigated" = true →
      pathField data = "" →
      classifyMessage data = none) ∧
    (strictEqString (jsGet data "type") "spektrix:navigated" = false →
      ∀ off, toNumber (jsGet data "spektrixOffset") = .finite off → 0 < off →
        classifyMessage data = some (.flowOffset off)) ∧
    (strictEqString (jsGet data "type") "spektrix:navigated" = false →
      jsNumIsFinite (toNumber (jsGet data "spektrixOffset")) = false →
      classifyMessage data = none) ∧
    (strictEqString (jsGet data "type") "spektrix:navigated" = false →
      ∀ off, toNumber (jsGet data "spektrixOffset") = .finite off → off ≤ 0 →
        classifyMessage data = none) := by
  refine ⟨?_, ?_, ?_, ?_, ?_⟩
  · intro ht hp
    simp [classifyMessage, ht, hp]
  · intro ht hp
    simp [classifyMessage, ht, hp]
  · intro ht off hoff hpos
    simp [classifyMessage, ht, hoff, hpos]
  · intro ht hfin
    cases hoff : toNumber (jsGet data "spektrixOffset") with
    | finite q => rw [hoff] at hfin; simp [jsNumIsFinite] at hfin
    | nan => simp [classifyMessage, ht, hoff]
    | posInf => simp [classifyMessage, ht, hoff]
    | negInf => simp [classifyMessage, ht, hoff]
  · intro ht off hoff hle
    simp [classifyMessage, ht, hoff, not_lt.mpr hle]

/-- Concrete instance of C4 as amended: a well-formed navigation message
is classified as a navigation event, and a pure offset message as a
flow-offset event. -/
theorem C4_classifyMessage_witness :
    classifyMessage (.obj [("type", .str "spektrix:navigated"),
        ("path", .str "/tickets/x")]) = some (.navigation "/tickets/x") ∧
    classifyMessage (.obj [("spektrixOffset", .num (.finite 120))]) =
      some (.flowOffset 120) := by
  constructor
  · exact (C4_classifyMessage_spec (.obj [("type", .str "spektrix:navigated"),
      ("path", .str "/tickets/x")])).1 rfl (by decide)
  · exact (C4_classifyMessage_spec
      (.obj [("spektrixOffset", .num (.finite 120))])).2.2.1 rfl 120 rfl (by norm_num)

/-- When the message passes the origin, coercion and iframe checks and its
type is strictly `"spektrix:navigated"`, the handler reduces to the
navigation branch. -/
theorem onMessageDecision_nav (options : Options) (env : Env) (origin : String)
    (msgData data : JSValue) (iframe : DomElement)
    (htrust : isAllowedOrigin env.parseHostname origin options.domain = true)
    (hdata : coerceMessageData env.jsonParse msgData = some data)
    (hiframe : env.getElementById options.iframeId = some iframe)
    (htype : strictEqString (jsGet data "type") "spektrix:navigated" = true) :
    onMessageDecision options env origin msgData =
      (if decide (pathField data ≠ "") &&
          shouldJumpAfterNavigation (pathField data) options.expressCheckoutAllowlist then
        some (computeScrollTarget
          (if options.navigateScrollTarget == "page" then 0 else getElementTop env iframe)
          (getEffectiveNavHeight env options) 0, false)
      else none) := by
  unfold onMessageDecision
  rw [htrust, hdata, hiframe]
  simp [htype]

/-- When the message passes the origin, coercion and iframe checks and its
type is not strictly `"spektrix:navigated"`, the handler reduces to the
flow-offset branch. -/
theorem onMessageDecision_flow (options : Options) (env : Env) (origin : String)
    (msgData data : JSValue) (iframe : DomElement)
    (htrust : isAllowedOrigin env.parseHostname origin options.domain = true)
    (hdata : coerceMessageData env.jsonParse msgData = some data)
    (hiframe : env.getElementById options.iframeId = some iframe)
    (htype : strictEqString (jsGet data "type") "spektrix:navigated" = false) :
    onMessageDecision options env origin msgData =
      (match toNumber (jsGet data "spektrixOffset") with
       | .finite off =>
         if 0 < off then
           some (computeScrollTarget (getElementTop env iframe)
             (getEffectiveNavHeight env options) off, true)
         else none
       | _ => none) := by
  unfold onMessageDecision
  rw [htrust, hdata, hiframe]
  simp [htype]

/-- Environment of the spec's flow-offset example: the Spektrix iframe
sits at document offset 400, the page is scrolled to the top, and the
message origin resolves to a Spektrix-hosted domain. -/
def flowEnv : Env where
  parseHostname := fun _ => some "system.spektrix.com"
  jsonParse := fun _ => none
  getElementById := fun _ => some ⟨400, 0⟩
  querySelector := fun _ => none
  scrollY := 0

/-- Options of the spec's flow-offset example: a fixed 50px nav bar. -/
def flowOptions : Options :=
  { defaultOptions with navHeight := .num (.finite 50) }

/-- The flow-offset message of the spec's example. -/
def flowMsg : JSValue := .obj [("spektrixOffset", .num (.finite 120))]

/-- C6: the flow-offset policy acts only on a finite, strictly positive
offset — a non-finite, zero or negative offset produces no decision — and
on a positive offset the target is `max(0, round(frameTop + offset -
obstructionHeight))` with `force = true`. -/
theorem C6_flowOffset_policy (options : Options) (env : Env) (origin : String)
    (msgData data : JSValue) (iframe : DomElement)
    (htrust : isAllowedOrigin env.parseHostname origin options.domain = true)
    (hdata : coerceMessageData env.jsonParse msgData = some data)
    (hiframe : env.getElementById options.iframeId = some iframe)
    (htype : strictEqString (jsGet data "type") "spektrix:navigated" = false) :
    (jsNumIsFinite (toNumber (jsGet data "spektrixOffset")) = false →
       onMessageDecision options env origin msgData = none) ∧
    (∀ off, toNumber (jsGet data "spektrixOffset") = .finite off → off ≤ 0 →
       onMessageDecision options env origin msgData = none) ∧
    (∀ off, toNumber (jsGet data "spektrixOffset") = .finite off → 0 < off →
       onMessageDecision options env origin msgData =
         some (max 0 (jsRound (getElementTop env iframe + off -
           getEffectiveNavHeight env options)), true)) := by
  rw [onMessageDecision_flow options env origin msgData data iframe htrust hdata
    hiframe htype]
  refine ⟨?_, ?_, ?_⟩
  · intro hfin
    cases hoff : toNumber (jsGet data "spektrixOffset") with
    | finite q => rw [hoff] at hfin; simp [jsNumIsFinite] at hfin
    | nan => rfl
    | posInf => rfl
    | negInf => rfl
  · intro off hoff hle
    rw [hoff]
    simp [not_lt.mpr hle]
  · intro off hoff hpos
    rw [hoff]
    simp only [hpos, if_true]
    have : computeScrollTarget (getElementTop env iframe)
        (getEffectiveNavHeight env options) off =
        max 0 (jsRound (getElementTop env iframe + off -
          getEffectiveNavHeight env options)) := by
      unfold computeScrollTarget
      exact jsRound_max_zero _
    rw [this]

/-- Concrete instance of C6, the spec's example: offset 120 with frame
top 400 and obstruction height 50 yields target 470 with force. -/
theorem C6_flowOffset_witness :
    onMessageDecision flowOptions flowEnv "https://system.spektrix.com" flowMsg =
      some (470, true) := by
  have h := (C6_flowOffset_policy flowOptions flowEnv "https://system.spektrix.com"
    flowMsg flowMsg ⟨400, 0⟩ (by decide) rfl rfl rfl).2.2 120 rfl (by norm_num)
  rw [h]
  have hnav : getEffectiveNavHeight flowEnv flowOptions = 50 := rfl
  have htop : getElementTop flowEnv ⟨400, 0⟩ = 400 + 0 := rfl
  rw [hnav, htop]
  have harith : (400 : ℚ) + 0 + 120 - 50 = ((470 : ℤ) : ℚ) := by norm_num
  rw [harith, jsRound_intCast]
  norm_num

/-- The resolved nav height only depends on the environment through the
selector query. -/
theorem getEffectiveNavHeight_congr (env env2 : Env) (options : Options)
    (hqs : env2.querySelector = env.querySelector) :
    getEffectiveNavHeight env2 options = getEffectiveNavHeight env options := by
  rw [getEffectiveNavHeight_def, getEffectiveNavHeight_def, hqs]

/-- The decision stage is unchanged across environments that agree on the
URL parser, the JSON parser, the selector query, and the document-absolute
top of the iframe (its viewport top plus the scroll offset) — in
particular across a pure change of scroll position with unchanged
layout. -/
theorem onMessageDecision_env_congr (options : Options) (env env2 : Env)
    (origin : String) (msgData : JSValue)
    (hph : env2.parseHostname = env.parseHostname)
    (hjp : env2.jsonParse = env.jsonParse)
    (hqs : env2.querySelector = env.querySelector)
    (hid : (env2.getElementById options.iframeId).map (fun el => el.rectTop + env2.scrollY)
         = (env.getElementById options.iframeId).map (fun el => el.rectTop + env.scrollY)) :
    onMessageDecision options env2 origin msgData =
    onMessageDecision options env origin msgData := by
  unfold onMessageDecision
  rw [hph, hjp]
  by_cases htrust : isAllowedOrigin env.parseHostname origin options.domain = true
  · simp only [htrust]
    cases hd : coerceMessageData env.jsonParse msgData with
    | none => rfl
    | some data =>
      cases h2 : env2.getElementById options.iframeId with
      | none =>
        cases h1 : env.getElementById options.iframeId with
        | none => rfl
        | some el1 => rw [h1, h2] at hid; simp at hid
      | some el2 =>
        cases h1 : env.getElementById options.iframeId with
        | none => rw [h1, h2] at hid; simp at hid
        | some el1 =>
          have htop : getElementTop env2 el2 = getElementTop env el1 := by
            rw [h1, h2] at hid
            simpa [getElementTop] using hid
          simp only [htop, getEffectiveNavHeight_congr env env2 options hqs]
  · have hfalse : isAllowedOrigin env.parseHostname origin options.domain = false :=
      Bool.not_eq_true _ ▸ eq_false_of_ne_true htrust
    simp [hfalse]

/-- C9: a trusted navigation message processed twice with unchanged
layout and configuration computes the same target both times, and once
the first scroll has taken effect (the scroll offset equals the target)
the second pass is a no-op under the unforced safety rule. -/
theorem C9_navigation_idempotent (options : Options) (env env2 : Env)
    (origin : String) (msgData : JSValue) (t : ℤ)
    (h1 : onMessageDecision options env origin msgData = some (t, false))
    (hph : env2.parseHostname = env.parseHostname)
    (hjp : env2.jsonParse = env.jsonParse)
    (hqs : env2.querySelector = env.querySelector)
    (hid : (env2.getElementById options.iframeId).map (fun el => el.rectTop + env2.scrollY)
         = (env.getElementById options.iframeId).map (fun el => el.rectTop + env.scrollY))
    (hscroll : env2.scrollY = (t : ℚ)) :
    onMessageDecision options env2 origin msgData = some (t, false) ∧
    onMessage options env2 origin msgData = none := by
  have h2 : onMessageDecision options env2 origin msgData = some (t, false) :=
    (onMessageDecision_env_congr options env env2 origin msgData hph hjp hqs hid).trans h1
  refine ⟨h2, ?_⟩
  unfold onMessage
  rw [h2]
  unfold scrollTo
  rw [hscroll]
  simp

/-- First-pass environment of the idempotence example: iframe viewport
top 100 with the page scrolled to 500. -/
def navEnvFirst : Env where
  parseHostname := fun _ => some "tickets.spektrix.com"
  jsonParse := fun _ => none
  getElementById := fun _ => some ⟨100, 0⟩
  querySelector := fun _ => none
  scrollY := 500

/-- Second-pass environment: same document layout (absolute iframe top
600) after the first scroll took effect (scroll offset 0). -/
def navEnvSecond : Env where
  parseHostname := fun _ => some "tickets.spektrix.com"
  jsonParse := fun _ => none
  getElementById := fun _ => some ⟨600, 0⟩
  querySelector := fun _ => none
  scrollY := 0

/-- The navigation message of the idempotence example. -/
def navMsg : JSValue :=
  .obj [("type", .str "spektrix:navigated"), ("path", .str "/tickets/x")]

/-- Concrete instance of C9: the navigation jump to page top computes
target 0 on both passes, and once the scroll offset is 0 the second pass
issues no scroll command. -/
theorem C9_navigation_idempotent_witness :
    onMessageDecision defaultOptions navEnvSecond "https://tickets.spektrix.com" navMsg
      = some (0, false) ∧
    onMessage defaultOptions navEnvSecond "https://tickets.spektrix.com" navMsg
      = none := by
  have hdec : onMessageDecision defaultOptions navEnvFirst
      "https://tickets.spektrix.com" navMsg = some (0, false) := by
    rw [onMessageDecision_nav defaultOptions navEnvFirst "https://tickets.spektrix.com"
      navMsg navMsg ⟨100, 0⟩ (by decide) rfl rfl (by decide)]
    have hc : (decide (pathField navMsg ≠ "") &&
        shouldJumpAfterNavigation (pathField navMsg)
          defaultOptions.expressCheckoutAllowlist) = true := by decide
    rw [hc, if_pos rfl]
    have hbase : (if (defaultOptions.navigateScrollTarget == "page") = true then (0 : ℚ)
        else getElementTop navEnvFirst ⟨100, 0⟩) = 0 := by decide
    rw [hbase]
    have hnav : getEffectiveNavHeight navEnvFirst defaultOptions = 0 := rfl
    rw [hnav, computeScrollTarget_eq 0 0 0 0 (by norm_num) le_rfl]
  exact C9_navigation_idempotent defaultOptions navEnvFirst navEnvSecond
    "https://tickets.spektrix.com" navMsg 0 hdec rfl rfl rfl
    (by simp [navEnvFirst, navEnvSecond]; norm_num) (by norm_num [navEnvSecond])

/-- C10: the `spektrixOffset` field is read through the `Number` coercion
before the finite-and-positive test — `"120"` coerces to 120 and `true`
to 1 — so two structured messages that are not navigation-typed and whose
offset fields coerce to the same number are handled identically. -/
theorem C10_offset_number_coercion :
    toNumber (.str "120") = .finite 120 ∧
    toNumber (.bool true) = .finite 1 ∧
    ∀ (options : Options) (env : Env) (origin : String)
      (fields fields2 : List (String × JSValue)),
      strictEqString (jsGet (.obj fields) "type") "spektrix:navigated" = false →
      strictEqString (jsGet (.obj fields2) "type") "spektrix:navigated" = false →
      toNumber (jsGet (.obj fields) "spektrixOffset")
        = toNumber (jsGet (.obj fields2) "spektrixOffset") →
      onMessageDecision options env origin (.obj fields) =
      onMessageDecision options env origin (.obj fields2) := by
  refine ⟨rfl, rfl, ?_⟩
  intro options env origin fields fields2 htype htype2 hoff
  by_cases htrust : isAllowedOrigin env.parseHostname origin options.domain = true
  · cases hiframe : env.getElementById options.iframeId with
    | none =>
      unfold onMessageDecision
      rw [hiframe]
      simp only [htrust, Bool.not_true]
      cases coerceMessageData env.jsonParse (JSValue.obj fields) <;>
        cases coerceMessageData env.jsonParse (JSValue.obj fields2) <;> rfl
    | some iframe =>
      rw [onMessageDecision_flow options env origin (.obj fields) (.obj fields)
          iframe htrust rfl hiframe htype,
        onMessageDecision_flow options env origin (.obj fields2) (.obj fields2)
          iframe htrust rfl hiframe htype2,
        hoff]
  · have hfalse : isAllowedOrigin env.parseHostname origin options.domain = false :=
      Bool.not_eq_true _ ▸ eq_false_of_ne_true htrust
    unfold onMessageDecision
    simp [hfalse]

/-- Concrete instance of C10: the message carrying the string `"120"` as
its offset is decided exactly like the one carrying the number 120. -/
theorem C10_offset_number_coercion_witness :
    onMessageDecision flowOptions flowEnv "https://system.spektrix.com"
      (.obj [("spektrixOffset", .str "120")]) =
    onMessageDecision flowOptions flowEnv "https://system.spektrix.com"
      (.obj [("spektrixOffset", .num (.finite 120))]) := by
  exact C10_offset_number_coercion.2.2 flowOptions flowEnv
    "https://system.spektrix.com"
    [("spektrixOffset", .str "120")] [("spektrixOffset", .num (.finite 120))]
    rfl rfl rfl
